import Mathlib

/-!
Verification of the redback-runtime scene orchestrator (`src/main.rs`).

The Rust program is shallowly embedded: each structure mirrors the fields of the
corresponding Rust type that the runtime logic reads or writes, and each Lean
function mirrors the control flow of the Rust function it is named after.
External collaborators (the `dropbear_engine` renderer and frame loop, the
`eucalyptus_core` scene materializer and script engine, `bincode`, the
filesystem) are passed in as explicit function parameters gathered in
`Externals`; a Rust `unwrap`/`panic` is modelled by an explicit outcome
constructor, and an `anyhow` error return by another.  Positions use integer
coordinates: the only arithmetic the orchestrator performs on them is
componentwise addition, which is exact.
-/

/-- Three-component vector; mirrors the engine's position/offset vectors.
Components are integers because the orchestrator only adds them. -/
structure Vec3 where
  x : Int
  y : Int
  z : Int
deriving Repr, DecidableEq

/-- Componentwise addition, mirroring `target_pos + target.offset`. -/
def Vec3.add (a b : Vec3) : Vec3 :=
  ⟨a.x + b.x, a.y + b.y, a.z + b.z⟩

/-- The `Transform` component; only `position` is read by the follow logic. -/
structure Transform where
  position : Vec3
deriving Repr, DecidableEq

/-- `ScriptComponent` from `eucalyptus_core::states`: a script name and the
path its source is read from. -/
structure ScriptComponent where
  name : String
  path : String
deriving Repr, DecidableEq

/-- `CameraFollowTarget` from `eucalyptus_core::camera`: the label of the
entity to follow and the constant eye offset. -/
structure CameraFollowTarget where
  follow_target : String
  offset : Vec3
deriving Repr, DecidableEq

/-- The camera state the orchestrator mutates: `eye` and `target`. -/
structure Camera where
  eye : Vec3
  target : Vec3
deriving Repr, DecidableEq

/-- One row of the `hecs::World`: an entity id together with the optional
components the orchestrator queries.  `label` is the `AdoptedEntity` label
(present exactly when the entity has an `AdoptedEntity` component), and
`hasCameraComponent` records presence of the marker `CameraComponent`. -/
structure WorldEntity where
  id : Nat
  label : Option String
  transform : Option Transform
  script : Option ScriptComponent
  camera : Option Camera
  hasCameraComponent : Bool
  followTarget : Option CameraFollowTarget
deriving Repr, DecidableEq

/-- The live world: the set of entities, as a list in iteration order. -/
abbrev World := List WorldEntity

/-- Key codes distinguished by `RuntimeScene::key_down`. -/
inductive KeyCode where
  | escape
  | f1
  | other (code : Nat)
deriving Repr, DecidableEq

/-- `SceneCommand` from `dropbear_engine::scene`. -/
inductive SceneCommand where
  | none
  | quit
deriving Repr, DecidableEq

/-- The fields of `eucalyptus_core::input::InputState` that `main.rs`
reads or writes. -/
structure InputState where
  pressed_keys : List KeyCode
  mouse_pos : Int × Int
  mouse_button : List Nat
  mouse_delta : Option (Int × Int)
  is_cursor_locked : Bool
deriving Repr, DecidableEq

/-- `InputState::new()`: everything empty / unlocked. -/
def InputState.new : InputState :=
  { pressed_keys := []
  , mouse_pos := (0, 0)
  , mouse_button := []
  , mouse_delta := Option.none
  , is_cursor_locked := false }

/-- `SceneConfig` from `eucalyptus_core::states`; `main.rs` reads only its
`scene_name` and hands the whole config to the external materializer. -/
structure SceneConfig where
  scene_name : String
deriving Repr, DecidableEq

/-- `RuntimeData`: the decoded package; `main.rs` reads its `scene_data`. -/
structure RuntimeData where
  scene_data : List SceneConfig
deriving Repr, DecidableEq

/-- Insert into an association list with `HashMap::insert` semantics: an
existing binding of the key is replaced, otherwise the pair is appended. -/
def mapInsert (m : List (String × SceneConfig)) (k : String) (v : SceneConfig) :
    List (String × SceneConfig) :=
  match m with
  | [] => [(k, v)]
  | (k', v') :: rest =>
    if k' = k then (k, v) :: rest else (k', v') :: mapInsert rest k v

/-- `HashMap::get` on the association-list model. -/
def mapGet (m : List (String × SceneConfig)) (k : String) : Option SceneConfig :=
  match m with
  | [] => Option.none
  | (k', v) :: rest => if k' = k then some v else mapGet rest k

/-- The mutable state of `struct RuntimeScene`.  `render_pipeline` keeps only
the presence bit of the `Option<RenderPipeline>`; the GPU handle itself is
external. -/
structure RuntimeScene where
  scene_data : List (String × SceneConfig)
  current_scene_name : String
  world : World
  scene_command : SceneCommand
  input_state : InputState
  render_pipeline : Bool
  active_camera : Option Nat
deriving Repr, DecidableEq

/-- `RuntimeScene::new`: index the scene list by name, empty world, no
current scene, no pending command, fresh input state. -/
def RuntimeScene.new (rd : RuntimeData) : RuntimeScene :=
  { scene_data := rd.scene_data.foldl (fun m c => mapInsert m c.scene_name c) []
  , current_scene_name := ""
  , world := []
  , scene_command := SceneCommand.none
  , input_state := InputState.new
  , render_pipeline := false
  , active_camera := Option.none }

/-- `RuntimeScene::run_command`: `mem::replace(&mut self.scene_command,
SceneCommand::None)` — returns the pending command and resets it. -/
def RuntimeScene.run_command (rs : RuntimeScene) : SceneCommand × RuntimeScene :=
  (rs.scene_command, { rs with scene_command := SceneCommand.none })

/-- `RuntimeScene::key_down`.  Escape stores a `Quit` command; F1 toggles the
cursor lock (the window-cursor side effects are external); any other key is
inserted into the pressed-key set. -/
def RuntimeScene.key_down (rs : RuntimeScene) (key : KeyCode) : RuntimeScene :=
  match key with
  | KeyCode.escape => { rs with scene_command := SceneCommand.quit }
  | KeyCode.f1 =>
    { rs with input_state :=
        { rs.input_state with is_cursor_locked := !rs.input_state.is_cursor_locked } }
  | k =>
    { rs with input_state :=
        { rs.input_state with pressed_keys :=
            if k ∈ rs.input_state.pressed_keys then rs.input_state.pressed_keys
            else k :: rs.input_state.pressed_keys } }

/-- `RuntimeScene::key_up`: remove the key from the pressed-key set. -/
def RuntimeScene.key_up (rs : RuntimeScene) (key : KeyCode) : RuntimeScene :=
  { rs with input_state :=
      { rs.input_state with pressed_keys :=
          rs.input_state.pressed_keys.filter (fun k => k ≠ key) } }

/-- The external collaborators `load_scene` calls, as explicit functions.
`loadIntoWorld` is `SceneConfig::load_into_world` (eucalyptus_core): it fills
the world and returns the active camera entity id.  `fsRead` is
`std::fs::read`, returning `none` where Rust would return `Err` (the caller
unwraps it).  `loadScript` and `initEntityScript` are
`ScriptManager::load_script` / `init_entity_script`; `updateEntityScript` is
the per-frame tick.  Errors carry their message strings. -/
structure Externals where
  loadIntoWorld : SceneConfig → Except String (World × Nat)
  fsRead : String → Option (List Nat)
  loadScript : String → List Nat → Except String String
  initEntityScript : Nat → String → Except String Unit
  updateEntityScript : Nat → String → Int → Except String Unit

/-- Rust `Path::file_name`: the component after the last separator, or
`none` when that component is empty or `..`.  (Rust additionally ignores
trailing separators; no theorem here exercises such a path.) -/
def pathFileName (p : String) : Option String :=
  let tail := p.data.foldl (fun acc c => if c = '/' then [] else acc ++ [c]) []
  if tail = [] ∨ tail = ['.', '.'] then Option.none else some (String.mk tail)

/-- The `(entity, ScriptComponent)` pairs collected by the
`query::<&ScriptComponent>` loop in `load_scene`. -/
def scriptedEntities (w : World) : List (Nat × ScriptComponent) :=
  w.filterMap (fun e => e.script.map (fun s => (e.id, s)))

/-- How `load_scene` ends: normally, with an `anyhow` error return (`?` /
explicit `Err`), or with a process abort (an `unwrap` of `None`/`Err`). -/
inductive LoadOutcome where
  | ok
  | errMsg (msg : String)
  | panicMsg (msg : String)
deriving Repr, DecidableEq

/-- The warning logged when `ScriptManager::load_script` fails. -/
def loadFailLog (scriptName msg : String) : String :=
  "Failed to load script " ++ scriptName ++ ": " ++ msg

/-- The warning logged when `ScriptManager::init_entity_script` fails. -/
def initFailLog (scriptName : String) (eid : Nat) (msg : String) : String :=
  "Failed to initialise script " ++ scriptName ++ " for entity " ++
    toString eid ++ ": " ++ msg

/-- The per-entity script loop of `load_scene`: for each collected
`(entity, ScriptComponent)` it unwraps `path.file_name()` and
`std::fs::read(path)` (a `none` from either aborts the process), then calls
`load_script`; a load error is logged and the entity skipped, otherwise
`init_entity_script` runs and an init error is likewise only logged.
Returns the accumulated warnings, or `none` for a process abort. -/
def bindScripts (ext : Externals) (pending : List (Nat × ScriptComponent))
    (logs : List String) : Option (List String) :=
  match pending with
  | [] => some logs
  | (eid, sc) :: rest =>
    match pathFileName sc.path with
    | Option.none => Option.none
    | some fname =>
      match ext.fsRead sc.path with
      | Option.none => Option.none
      | some bytes =>
        match ext.loadScript fname bytes with
        | Except.error e => bindScripts ext rest (logs ++ [loadFailLog sc.name e])
        | Except.ok script_name =>
          match ext.initEntityScript eid script_name with
          | Except.error e => bindScripts ext rest (logs ++ [initFailLog sc.name eid e])
          | Except.ok _ => bindScripts ext rest logs

/-- The error message built by the `ok_or_else` on the scene lookup. -/
def sceneNotFoundMsg : String :=
  "Unable to fetch scene config: Returned None"

/-- `RuntimeScene::load_scene`.  Mirrors the source line by line: the world is
cleared first; then the scene config is looked up (a miss returns the
`anyhow` error and leaves the already-cleared world and the old
`current_scene_name` in place); then `load_into_world` fills the world and
sets `active_camera`; then the script loop runs; finally
`current_scene_name` is set to the requested name.  The second component of
the result is the list of warnings logged. -/
def load_scene (ext : Externals) (rs : RuntimeScene) (scene_name : String) :
    RuntimeScene × List String × LoadOutcome :=
  let rs1 : RuntimeScene := { rs with world := [] }
  match mapGet rs1.scene_data scene_name with
  | Option.none => (rs1, [], LoadOutcome.errMsg sceneNotFoundMsg)
  | some scene =>
    match ext.loadIntoWorld scene with
    | Except.error e => (rs1, [], LoadOutcome.errMsg e)
    | Except.ok (w, cam) =>
      let rs2 : RuntimeScene := { rs1 with world := w, active_camera := some cam }
      match bindScripts ext (scriptedEntities w) [] with
      | Option.none =>
        (rs2, [], LoadOutcome.panicMsg "called unwrap on a None value")
      | some logs =>
        ({ rs2 with current_scene_name := scene_name }, logs, LoadOutcome.ok)

/-- How `<RuntimeScene as Scene>::load` ends: either the scene is loaded and
the pipeline built, or the process panics. -/
inductive StartupOutcome where
  | loaded
  | panicked (msg : String)
deriving Repr, DecidableEq

/-- The error logged when the initial `load_scene(graphics, "Default")`
fails. -/
def defaultLoadFailLog (msg : String) : String :=
  "Failed to load scene Default: " ++ msg

/-- `<RuntimeScene as Scene>::load`.  Calls `load_scene` with the literal
name `"Default"`; a failure is only logged.  Then pipeline setup requires an
active camera entity carrying a `Camera` component: a missing
`active_camera`, a dangling entity id, or a missing component each panic
with the source's message. -/
def sceneLoad (ext : Externals) (rs : RuntimeScene) :
    RuntimeScene × List String × StartupOutcome :=
  let r := load_scene ext rs "Default"
  match r.2.2 with
  | LoadOutcome.panicMsg m => (r.1, r.2.1, StartupOutcome.panicked m)
  | out =>
    let logs :=
      match out with
      | LoadOutcome.errMsg e => r.2.1 ++ [defaultLoadFailLog e]
      | _ => r.2.1
    match r.1.active_camera with
    | Option.none =>
      (r.1, logs, StartupOutcome.panicked
        "Unable to create render pipeline, which is required for graphics.")
    | some camId =>
      match r.1.world.find? (fun e => e.id = camId) with
      | Option.none =>
        (r.1, logs, StartupOutcome.panicked "Unable to query active camera entity!")
      | some camEnt =>
        match camEnt.camera with
        | Option.none =>
          (r.1, logs, StartupOutcome.panicked
            "Unable to get camera component from active camera entity!")
        | some _ => ({ r.1 with render_pipeline := true }, logs, StartupOutcome.loaded)

/-- The inner lookup of the camera-follow loop: scan the entities that have
both an `AdoptedEntity` and a `Transform` (the `query::<(&AdoptedEntity,
&Transform)>`), and return the position of the first whose label equals the
follow target (the loop `break`s on the first hit). -/
def followLookup (w : World) (tgt : String) : Option Vec3 :=
  w.findSome? (fun e =>
    match e.label, e.transform with
    | some l, some tr => if l = tgt then some tr.position else Option.none
    | _, _ => Option.none)

/-- One step of the camera-follow loop for one entity of the outer
`query::<(&mut Camera, &CameraComponent, Option<&CameraFollowTarget>)>`:
entities without both `Camera` and `CameraComponent` are not in the query;
a camera without a follow target is untouched; otherwise, when the lookup
finds a position `p`, the camera's eye becomes `p + offset` and its target
`p`, and when it finds nothing the camera is left as it was. -/
def applyFollow (w : World) (e : WorldEntity) : WorldEntity :=
  match e.camera, e.followTarget with
  | some _, some ft =>
    if e.hasCameraComponent then
      match followLookup w ft.follow_target with
      | some p =>
        { e with camera := some { eye := Vec3.add p ft.offset, target := p } }
      | Option.none => e
    else e
  | _, _ => e

/-- The whole camera-follow pass of `update`: every camera entity is updated
against the (read-only) world.  The inner queries read only `AdoptedEntity`
and `Transform`, which the pass never writes, so resolving each camera
against the pre-pass world is exact. -/
def updateFollowing (w : World) : World :=
  w.map (applyFollow w)

/-- Observable phase events of one frame, tagged with the entity id they
concern. -/
inductive FrameEvent where
  | scriptTick (id : Nat)
  | followResolve (id : Nat)
  | cameraUniform (id : Nat)
  | transformSync (id : Nat)
  | renderSubmit (id : Nat)
deriving Repr, DecidableEq

/-- The position of an event's phase in the frame: script ticks, then follow
resolution, then camera uniform updates, then transform sync, then render
submission. -/
def phaseIndex : FrameEvent → Nat
  | FrameEvent.scriptTick _ => 0
  | FrameEvent.followResolve _ => 1
  | FrameEvent.cameraUniform _ => 2
  | FrameEvent.transformSync _ => 3
  | FrameEvent.renderSubmit _ => 4

/-- The `(entity, script name)` pairs collected by the
`query::<&ScriptComponent>` loop in `update`. -/
def scriptNames (w : World) : List (Nat × String) :=
  w.filterMap (fun e => e.script.map (fun s => (e.id, s.name)))

/-- The warning logged when `update_entity_script` fails for one entity. -/
def tickFailLog (scriptName : String) (eid : Nat) (msg : String) : String :=
  "Failed to update script " ++ scriptName ++ " for entity " ++
    toString eid ++ ": " ++ msg

/-- The script-tick loop of `update`: every collected entity is ticked in
order; a tick error is logged (`log::warn`) and the loop continues with the
next entity.  Returns the warnings and the `scriptTick` events. -/
def runTicks (tick : Nat → String → Int → Except String Unit) (dt : Int) :
    List (Nat × String) → List String × List FrameEvent
  | [] => ([], [])
  | (eid, name) :: rest =>
    let r := runTicks tick dt rest
    match tick eid name dt with
    | Except.error e =>
      (tickFailLog name eid e :: r.1, FrameEvent.scriptTick eid :: r.2)
    | Except.ok _ => (r.1, FrameEvent.scriptTick eid :: r.2)

/-- `followResolve` events: one per entity of the outer camera query
(`Camera` and `CameraComponent` present, follow target declared). -/
def followEvents (w : World) : List FrameEvent :=
  (w.filter (fun e =>
      e.camera.isSome && e.hasCameraComponent && e.followTarget.isSome)).map
    (fun e => FrameEvent.followResolve e.id)

/-- `cameraUniform` events: one per entity of `query::<&mut Camera>` —
`camera.update(graphics)` refreshes the uniform buffer, an external effect. -/
def uniformEvents (w : World) : List FrameEvent :=
  (w.filter (fun e => e.camera.isSome)).map
    (fun e => FrameEvent.cameraUniform e.id)

/-- `transformSync` events: one per entity of
`query_mut::<(&mut AdoptedEntity, &Transform)>` — `entity.update(graphics,
transform)` pushes the transform to the GPU, an external effect. -/
def syncEvents (w : World) : List FrameEvent :=
  (w.filter (fun e => e.label.isSome && e.transform.isSome)).map
    (fun e => FrameEvent.transformSync e.id)

/-- `<RuntimeScene as Scene>::update`.  In source order: the script-tick
loop, the camera-follow pass, the camera uniform pass, the entity transform
sync, and finally `self.input_state.mouse_delta = None`.  (The
cursor-visibility call at the top is a window side effect with no state in
this model.)  Returns the new state, the warnings logged, and the ordered
trace of phase events. -/
def updateScene (tick : Nat → String → Int → Except String Unit)
    (rs : RuntimeScene) (dt : Int) :
    RuntimeScene × List String × List FrameEvent :=
  let ticked := runTicks tick dt (scriptNames rs.world)
  let w1 := updateFollowing rs.world
  ({ rs with
       world := w1
     , input_state := { rs.input_state with mouse_delta := Option.none } }
  , ticked.1
  , ticked.2 ++ followEvents rs.world ++ uniformEvents w1 ++ syncEvents w1)

/-- `<RuntimeScene as Scene>::render`: when a pipeline exists and the active
camera entity still carries its `Camera` component, one draw call is
submitted per entity of `query::<(&AdoptedEntity, &Transform)>`; otherwise
nothing is drawn.  (Light draws are submitted inside the same pass before
the entity draws and are not modelled separately.) -/
def renderScene (rs : RuntimeScene) : List FrameEvent :=
  if rs.render_pipeline then
    match rs.active_camera with
    | Option.none => []
    | some camId =>
      match rs.world.find? (fun e => e.id = camId) with
      | Option.none => []
      | some camEnt =>
        match camEnt.camera with
        | Option.none => []
        | some _ =>
          (rs.world.filter (fun e => e.label.isSome && e.transform.isSome)).map
            (fun e => FrameEvent.renderSubmit e.id)
  else []

/-- Modelled from the spec: the frame loop lives in `dropbear_engine`
(external to this crate); per §4.6/§5 of the design it calls the scene's
`update` and then its `render` sequentially within each frame.  The frame
trace is therefore the update trace followed by the render trace. -/
def frameTrace (tick : Nat → String → Int → Except String Unit)
    (rs : RuntimeScene) (dt : Int) : List FrameEvent :=
  let u := updateScene tick rs dt
  u.2.2 ++ renderScene u.1

/-- Modelled from the bincode crate's public error type (external to this
repository): the `Utf8` variant plus representative other variants.  The
code in `run` only distinguishes `Utf8` from everything else. -/
inductive DecodeError where
  | utf8 (msg : String)
  | unexpectedEnd
  | limitExceeded
  | otherVariant (msg : String)
deriving Repr, DecidableEq

/-- The `matches!(e, DecodeError::Utf8 { .. })` guard in `run`. -/
def isUtf8Error : DecodeError → Bool
  | DecodeError.utf8 _ => true
  | _ => false

/-- How the decode phase of `run` ends. -/
inductive DecodePhaseResult where
  | proceed (content : RuntimeData)
  | fatalVersionMismatch (msg : String)
  | fatalCorrupt (msg : String)
deriving Repr, DecidableEq

/-- The message shown for an outdated (`Utf8`) package. -/
def outdatedPackageMsg : String :=
  "Your game .eupak package is outdated and cannot be read with the latest redback-runtime executable"

/-- The message shown for any other decode failure. -/
def corruptPackageMsg : String :=
  "Error loading package"

/-- The decode phase of `run` (the big `match` on
`bincode::decode_from_slice`): a success yields the `RuntimeData` (the
consumed length is dropped); a `Utf8` error shows the outdated-package
dialog and halts; any other error shows the generic message and halts.
Both failure outcomes are fatal, but they are distinct and carry distinct
messages. -/
def handleDecode (res : Except DecodeError (RuntimeData × Nat)) :
    DecodePhaseResult :=
  match res with
  | Except.ok (content, _) => DecodePhaseResult.proceed content
  | Except.error e =>
    if isUtf8Error e then DecodePhaseResult.fatalVersionMismatch outdatedPackageMsg
    else DecodePhaseResult.fatalCorrupt corruptPackageMsg

/-- Filesystem reads performed during startup. -/
inductive StartupEvent where
  | readPackageBytes (path : String)
deriving Repr, DecidableEq

/-- Rust `str::strip_suffix`: remove the suffix if the string ends with it,
else `None`.  Stated on the underlying character lists. -/
def stripSuffix (s suffix : String) : Option String :=
  if suffix.data.isSuffixOf s.data then
    some (String.mk (s.data.take (s.data.length - suffix.data.length)))
  else Option.none

/-- The startup path logic of `run` (lines 56–85): take the executable's
file name, strip the `.exe` suffix (failure is an error, before any file is
touched), build `<exe-dir>/<base>.eupak`, error if that file does not exist,
and otherwise read its bytes.  Returns the package path (on success) and
the trace of file reads. -/
def runStartup (fileName exeDir : String) (fileExists : String → Bool) :
    Except String String × List StartupEvent :=
  match stripSuffix fileName ".exe" with
  | Option.none =>
    (Except.error ("Unable to strip suffix while fetching the executable's name: " ++ fileName), [])
  | some project_name =>
    let path := exeDir ++ "/" ++ project_name ++ ".eupak"
    if fileExists path then
      (Except.ok path, [StartupEvent.readPackageBytes path])
    else
      (Except.error (project_name ++ ".eupak was not found at " ++ path ++
        ", which is required to start the game."), [])

/-- Externals whose collaborators are never reached or always succeed
trivially; used for concrete evaluations. -/
def extEmpty : Externals :=
  { loadIntoWorld := fun _ => Except.error "unused"
  , fsRead := fun _ => Option.none
  , loadScript := fun _ _ => Except.error "unused"
  , initEntityScript := fun _ _ => Except.ok ()
  , updateEntityScript := fun _ _ _ => Except.ok () }

/-- A plain model entity (no camera, no script). -/
def crateEntity : WorldEntity :=
  { id := 0, label := some "Crate", transform := some ⟨⟨1, 2, 3⟩⟩
  , script := Option.none, camera := Option.none
  , hasCameraComponent := false, followTarget := Option.none }

/-- A runtime state holding one scene named `Default` and one live entity. -/
def rsWithWorld : RuntimeScene :=
  { RuntimeScene.new ⟨[⟨"Default"⟩]⟩ with world := [crateEntity] }

/-- C1 (amended): switching to a scene name absent from the catalogue leaves
`current_scene_name` unchanged and returns the scene-not-found error, but the
live world has already been cleared by the time of the lookup, so it is empty
afterwards rather than unchanged. -/
theorem c1_scene_not_found (ext : Externals) (rs : RuntimeScene) (name : String)
    (h : mapGet rs.scene_data name = Option.none) :
    (load_scene ext rs name).1.current_scene_name = rs.current_scene_name ∧
    (load_scene ext rs name).2.2 = LoadOutcome.errMsg sceneNotFoundMsg ∧
    (load_scene ext rs name).1.world = [] := by
  simp [load_scene, h]

/-- C1 witness: the amended statement at a concrete state and scene name. -/
theorem c1_scene_not_found_witness :
    (load_scene extEmpty rsWithWorld "Missing").1.current_scene_name =
        rsWithWorld.current_scene_name ∧
    (load_scene extEmpty rsWithWorld "Missing").2.2 =
        LoadOutcome.errMsg sceneNotFoundMsg ∧
    (load_scene extEmpty rsWithWorld "Missing").1.world = [] :=
  c1_scene_not_found extEmpty rsWithWorld "Missing" (by decide)

/-- C1 counterexample: with one live entity, a switch to the missing scene
`"Missing"` empties the world — the live world is not left unchanged as the
claim states. -/
theorem c1_counterexample :
    (load_scene extEmpty rsWithWorld "Missing").2.2 =
        LoadOutcome.errMsg sceneNotFoundMsg ∧
    (load_scene extEmpty rsWithWorld "Missing").1.world ≠ rsWithWorld.world := by
  exact ⟨rfl, by decide⟩

/-- C8: `update` unconditionally ends with `self.input_state.mouse_delta =
None`: after every update call the stored mouse delta is empty, whatever the
scripts did and whatever the prior state was. -/
theorem c8_mouse_delta_reset (tick : Nat → String → Int → Except String Unit)
    (rs : RuntimeScene) (dt : Int) :
    (updateScene tick rs dt).1.input_state.mouse_delta = Option.none := rfl

/-- C10: `run_command` returns the pending command and resets the stored one,
so a command is delivered at most once: a second call with no intervening
event returns `None`, and an Escape key-down delivers exactly one `Quit`. -/
theorem c10_run_command_once (rs : RuntimeScene) :
    (rs.run_command).1 = rs.scene_command ∧
    (rs.run_command).2.scene_command = SceneCommand.none ∧
    ((rs.run_command).2.run_command).1 = SceneCommand.none ∧
    ((rs.key_down KeyCode.escape).run_command).1 = SceneCommand.quit ∧
    (((rs.key_down KeyCode.escape).run_command).2.run_command).1 =
      SceneCommand.none :=
  ⟨rfl, rfl, rfl, rfl, rfl⟩


/-- `load_scene` only ever writes the requested name into
`current_scene_name`; every failing path leaves the old name. -/
theorem load_scene_name_cases (ext : Externals) (rs : RuntimeScene)
    (name : String) :
    (load_scene ext rs name).1.current_scene_name = name ∨
    (load_scene ext rs name).1.current_scene_name = rs.current_scene_name := by
  unfold load_scene
  dsimp only
  split
  · exact Or.inr rfl
  · split
    · exact Or.inr rfl
    · split
      · exact Or.inr rfl
      · exact Or.inl rfl

/-- `Scene::load` never changes `current_scene_name` beyond what its inner
`load_scene(_, "Default")` call did. -/
theorem sceneLoad_name (ext : Externals) (rs : RuntimeScene) :
    (sceneLoad ext rs).1.current_scene_name =
      (load_scene ext rs "Default").1.current_scene_name := by
  unfold sceneLoad
  dsimp only
  split
  · rfl
  · split
    · rfl
    · split
      · rfl
      · split
        · rfl
        · rfl

/-- When the catalogue lookup of `"Default"` fails and no camera was active
before, `Scene::load` keeps the old scene name, logs the failure, and panics
during pipeline setup. -/
theorem sceneLoad_no_default (ext : Externals) (rs : RuntimeScene)
    (h : mapGet rs.scene_data "Default" = Option.none)
    (hcam : rs.active_camera = Option.none) :
    (sceneLoad ext rs).1.current_scene_name = rs.current_scene_name ∧
    defaultLoadFailLog sceneNotFoundMsg ∈ (sceneLoad ext rs).2.1 ∧
    (sceneLoad ext rs).2.2 = StartupOutcome.panicked
      "Unable to create render pipeline, which is required for graphics." := by
  unfold sceneLoad load_scene
  dsimp only
  rw [h]
  dsimp only
  rw [hcam]
  simp

/-- C2 (amended): startup always loads the scene literally named `"Default"`.
When the catalogue has no scene of that name — whether or not other scenes
exist — no scene is loaded at all: `current_scene_name` stays empty (the
first declared scene is NOT used as a fallback), the scene-not-found failure
is logged, and startup dies with the no-render-pipeline panic because no
active camera was ever produced.  In every run the loaded scene name is
either `"Default"` or the initial empty string. -/
theorem c2_default_scene (ext : Externals) (rd : RuntimeData) :
    (mapGet (RuntimeScene.new rd).scene_data "Default" = Option.none →
      (sceneLoad ext (RuntimeScene.new rd)).1.current_scene_name = "" ∧
      defaultLoadFailLog sceneNotFoundMsg ∈
        (sceneLoad ext (RuntimeScene.new rd)).2.1 ∧
      (sceneLoad ext (RuntimeScene.new rd)).2.2 = StartupOutcome.panicked
        "Unable to create render pipeline, which is required for graphics.") ∧
    ((sceneLoad ext (RuntimeScene.new rd)).1.current_scene_name = "Default" ∨
     (sceneLoad ext (RuntimeScene.new rd)).1.current_scene_name = "") := by
  constructor
  · intro h
    exact sceneLoad_no_default ext (RuntimeScene.new rd) h rfl
  · have hc := load_scene_name_cases ext (RuntimeScene.new rd) "Default"
    rw [sceneLoad_name]
    exact hc

/-- C2 witness: the amended statement at a concrete one-scene catalogue
without a `"Default"` scene. -/
theorem c2_default_scene_witness :
    (sceneLoad extEmpty (RuntimeScene.new ⟨[⟨"Level1"⟩]⟩)).1.current_scene_name
        = "" ∧
    defaultLoadFailLog sceneNotFoundMsg ∈
        (sceneLoad extEmpty (RuntimeScene.new ⟨[⟨"Level1"⟩]⟩)).2.1 ∧
    (sceneLoad extEmpty (RuntimeScene.new ⟨[⟨"Level1"⟩]⟩)).2.2 =
      StartupOutcome.panicked
        "Unable to create render pipeline, which is required for graphics." :=
  (c2_default_scene extEmpty ⟨[⟨"Level1"⟩]⟩).1 (by decide)

/-- C2 counterexample: a catalogue whose only scene is `"Level1"`.  The claim
says startup falls back to the first declared scene; the code instead loads
nothing (the scene name stays empty, not `"Level1"`) and panics. -/
theorem c2_counterexample :
    (sceneLoad extEmpty (RuntimeScene.new ⟨[⟨"Level1"⟩]⟩)).1.current_scene_name
        ≠ "Level1" ∧
    (sceneLoad extEmpty (RuntimeScene.new ⟨[⟨"Level1"⟩]⟩)).2.2 =
      StartupOutcome.panicked
        "Unable to create render pipeline, which is required for graphics." := by
  exact ⟨by decide, rfl⟩

/-- The entity labelled `"Hero"` sitting at the origin. -/
def heroEntity : WorldEntity :=
  { id := 0, label := some "Hero", transform := some ⟨⟨0, 0, 0⟩⟩
  , script := Option.none, camera := Option.none
  , hasCameraComponent := false, followTarget := Option.none }

/-- A camera entity configured to follow `"Hero"` at offset `(0, 5, -10)`,
currently aimed somewhere else. -/
def followCamEntity : WorldEntity :=
  { id := 1, label := Option.none, transform := Option.none
  , script := Option.none
  , camera := some ⟨⟨9, 9, 9⟩, ⟨8, 8, 8⟩⟩
  , hasCameraComponent := true
  , followTarget := some ⟨"Hero", ⟨0, 5, -10⟩⟩ }

/-- The two-entity demonstration world. -/
def demoWorld : World := [heroEntity, followCamEntity]

/-- C5: in one camera-follow pass, a camera declaring follow target `L` with
offset `O` is updated from the position `p` of the first world entity (in
query order, `AdoptedEntity` and `Transform` both present) whose label equals
`L`: its look-at target becomes `p` and its eye `p + O`; and when
`followLookup` finds no such entity the camera entity is left exactly as it
was — it keeps its last computed eye and target rather than being reset. -/
theorem c5_camera_follow (w : World) (c : WorldEntity) (cam : Camera)
    (ft : CameraFollowTarget) (hc : c ∈ w) (hcam : c.camera = some cam)
    (hcc : c.hasCameraComponent = true) (hft : c.followTarget = some ft) :
    (applyFollow w c ∈ updateFollowing w) ∧
    (∀ p, followLookup w ft.follow_target = some p →
      (applyFollow w c).camera =
        some { eye := Vec3.add p ft.offset, target := p }) ∧
    (followLookup w ft.follow_target = Option.none → applyFollow w c = c) := by
  refine ⟨List.mem_map_of_mem (applyFollow w) hc, ?_, ?_⟩
  · intro p hp
    simp [applyFollow, hcam, hft, hcc, hp]
  · intro hp
    simp [applyFollow, hcam, hft, hcc, hp]

/-- C5 witness: the spec's concrete example — hero at the origin, offset
`(0, 5, -10)` — yields eye `(0, 5, -10)` and target `(0, 0, 0)`. -/
theorem c5_camera_follow_witness :
    (applyFollow demoWorld followCamEntity).camera =
      some { eye := Vec3.add ⟨0, 0, 0⟩ ⟨0, 5, -10⟩, target := ⟨0, 0, 0⟩ } :=
  (c5_camera_follow demoWorld followCamEntity ⟨⟨9, 9, 9⟩, ⟨8, 8, 8⟩⟩
    ⟨"Hero", ⟨0, 5, -10⟩⟩ (by decide) rfl rfl rfl).2.1 ⟨0, 0, 0⟩ (by decide)

/-- C9: when the executable's file name does not end in `.exe`, `run` fails
before any package bytes are read (the read trace is empty); when it does,
the package path is the executable directory joined with the `.exe`-stripped
base name plus `.eupak`, and a missing file at that path is likewise a
startup error with nothing read. -/
theorem c9_startup_path (fileName exeDir : String)
    (fileExists : String → Bool) :
    (stripSuffix fileName ".exe" = Option.none →
      (∃ m, (runStartup fileName exeDir fileExists).1 = Except.error m) ∧
      (runStartup fileName exeDir fileExists).2 = []) ∧
    (∀ base, stripSuffix fileName ".exe" = some base →
      (fileExists (exeDir ++ "/" ++ base ++ ".eupak") = true →
        (runStartup fileName exeDir fileExists).1 =
          Except.ok (exeDir ++ "/" ++ base ++ ".eupak") ∧
        (runStartup fileName exeDir fileExists).2 =
          [StartupEvent.readPackageBytes (exeDir ++ "/" ++ base ++ ".eupak")]) ∧
      (fileExists (exeDir ++ "/" ++ base ++ ".eupak") = false →
        (∃ m, (runStartup fileName exeDir fileExists).1 = Except.error m) ∧
        (runStartup fileName exeDir fileExists).2 = [])) := by
  constructor
  · intro h
    simp [runStartup, h]
  · intro base hb
    constructor
    · intro hex
      simp [runStartup, hb, hex]
    · intro hex
      simp [runStartup, hb, hex]

/-- C9 witness: `game.exe` next to an existing `game.eupak`. -/
theorem c9_startup_path_witness :
    (runStartup "game.exe" "C:" (fun _ => true)).1 =
      Except.ok ("C:" ++ "/" ++ "game" ++ ".eupak") ∧
    (runStartup "game.exe" "C:" (fun _ => true)).2 =
      [StartupEvent.readPackageBytes ("C:" ++ "/" ++ "game" ++ ".eupak")] :=
  ((c9_startup_path "game.exe" "C:" (fun _ => true)).2 "game" (by decide)).1 rfl

/-- C3: the decode phase of `run` is a total function of the decoder's
returned value — every outcome of `bincode::decode_from_slice` (an external,
pure decoder, here an arbitrary function) is handled by the `match`, never
unwrapped: a success proceeds with the decoded `RuntimeData`, a `Utf8` error
becomes the distinct format/version-mismatch report, and every other error
becomes the generic-corruption report; the two reports are distinct. -/
theorem c3_decode_classified
    (dec : List Nat → Except DecodeError (RuntimeData × Nat))
    (bytes : List Nat) :
    (∀ c, dec bytes = Except.ok c →
      handleDecode (dec bytes) = DecodePhaseResult.proceed c.1) ∧
    (∀ e, dec bytes = Except.error e → isUtf8Error e = true →
      handleDecode (dec bytes) =
        DecodePhaseResult.fatalVersionMismatch outdatedPackageMsg) ∧
    (∀ e, dec bytes = Except.error e → isUtf8Error e = false →
      handleDecode (dec bytes) =
        DecodePhaseResult.fatalCorrupt corruptPackageMsg) ∧
    (∀ m m', DecodePhaseResult.fatalVersionMismatch m ≠
      DecodePhaseResult.fatalCorrupt m') := by
  refine ⟨?_, ?_, ?_, ?_⟩
  · intro c hc
    rw [hc]
    obtain ⟨content, len⟩ := c
    rfl
  · intro e he hu
    rw [he]
    simp [handleDecode, hu]
  · intro e he hu
    rw [he]
    simp [handleDecode, hu]
  · intro m m' h
    exact DecodePhaseResult.noConfusion h

/-- A decoder that always reports invalid UTF-8, standing in for bincode on
an incompatibly-encoded package. -/
def decUtf8Demo : List Nat → Except DecodeError (RuntimeData × Nat) :=
  fun _ => Except.error (DecodeError.utf8 "invalid utf-8 sequence")

/-- C3 witness: a UTF-8 decode failure is reported as the version-mismatch
condition. -/
theorem c3_decode_classified_witness :
    handleDecode (decUtf8Demo []) =
      DecodePhaseResult.fatalVersionMismatch outdatedPackageMsg :=
  (c3_decode_classified decUtf8Demo []).2.1
    (DecodeError.utf8 "invalid utf-8 sequence") rfl rfl

/-- The script-tick loop emits one `scriptTick` event per collected entity,
in order, regardless of which ticks fail. -/
theorem runTicks_trace (tick : Nat → String → Int → Except String Unit)
    (dt : Int) (l : List (Nat × String)) :
    (runTicks tick dt l).2 = l.map (fun p => FrameEvent.scriptTick p.1) := by
  induction l with
  | nil => rfl
  | cons p rest ih =>
    obtain ⟨eid, name⟩ := p
    simp only [runTicks]
    cases tick eid name dt <;> simp [ih]

/-- A list of events all in one phase is internally ordered. -/
theorem pairwise_of_const_phase {l : List FrameEvent} {n : Nat}
    (h : ∀ a ∈ l, phaseIndex a = n) :
    l.Pairwise (fun a b => phaseIndex a ≤ phaseIndex b) := by
  induction l with
  | nil => exact List.Pairwise.nil
  | cons x xs ih =>
    refine List.Pairwise.cons (fun y hy => ?_) (ih fun a ha => h a (by simp [ha]))
    rw [h x (by simp), h y (by simp [hy])]

/-- Appending a block of later-phase events preserves ordering. -/
theorem pairwise_phase_append {l1 l2 : List FrameEvent} (n : Nat)
    (h1 : ∀ a ∈ l1, phaseIndex a ≤ n) (h2 : ∀ b ∈ l2, n ≤ phaseIndex b)
    (p1 : l1.Pairwise (fun a b => phaseIndex a ≤ phaseIndex b))
    (p2 : l2.Pairwise (fun a b => phaseIndex a ≤ phaseIndex b)) :
    (l1 ++ l2).Pairwise (fun a b => phaseIndex a ≤ phaseIndex b) :=
  List.pairwise_append.mpr
    ⟨p1, p2, fun a ha b hb => le_trans (h1 a ha) (h2 b hb)⟩

/-- Every event of the tick block is a `scriptTick` (phase 0). -/
theorem ticks_phase (tick : Nat → String → Int → Except String Unit) (dt : Int)
    (l : List (Nat × String)) :
    ∀ a ∈ (runTicks tick dt l).2, phaseIndex a = 0 := by
  intro a ha
  rw [runTicks_trace] at ha
  simp only [List.mem_map] at ha
  obtain ⟨p, _, rfl⟩ := ha
  rfl

/-- Every event of the follow block is a `followResolve` (phase 1). -/
theorem followEvents_phase (w : World) :
    ∀ a ∈ followEvents w, phaseIndex a = 1 := by
  intro a ha
  simp only [followEvents, List.mem_map] at ha
  obtain ⟨e, _, rfl⟩ := ha
  rfl

/-- Every event of the uniform block is a `cameraUniform` (phase 2). -/
theorem uniformEvents_phase (w : World) :
    ∀ a ∈ uniformEvents w, phaseIndex a = 2 := by
  intro a ha
  simp only [uniformEvents, List.mem_map] at ha
  obtain ⟨e, _, rfl⟩ := ha
  rfl

/-- Every event of the sync block is a `transformSync` (phase 3). -/
theorem syncEvents_phase (w : World) :
    ∀ a ∈ syncEvents w, phaseIndex a = 3 := by
  intro a ha
  simp only [syncEvents, List.mem_map] at ha
  obtain ⟨e, _, rfl⟩ := ha
  rfl

/-- Every event of the render pass is a `renderSubmit` (phase 4). -/
theorem renderScene_phase (rs : RuntimeScene) :
    ∀ a ∈ renderScene rs, phaseIndex a = 4 := by
  intro a ha
  unfold renderScene at ha
  split at ha
  · split at ha
    · simp at ha
    · split at ha
      · simp at ha
      · split at ha
        · simp at ha
        · simp only [List.mem_map] at ha
          obtain ⟨e, _, rfl⟩ := ha
          rfl
  · simp at ha

/-- The trace of one `update` call, spelled out. -/
theorem updateScene_trace (tick : Nat → String → Int → Except String Unit)
    (rs : RuntimeScene) (dt : Int) :
    (updateScene tick rs dt).2.2 =
      (runTicks tick dt (scriptNames rs.world)).2 ++
      (followEvents rs.world ++
       (uniformEvents (updateFollowing rs.world) ++
        syncEvents (updateFollowing rs.world))) := by
  unfold updateScene
  dsimp only
  simp [List.append_assoc]

/-- C6: within every frame, every script tick precedes every camera-follow
resolution, which precedes every camera uniform update, which precedes every
entity transform sync, which precedes every render submission: the phase
indices along the frame trace are monotone. -/
theorem c6_frame_phase_order (tick : Nat → String → Int → Except String Unit)
    (rs : RuntimeScene) (dt : Int) :
    (frameTrace tick rs dt).Pairwise
      (fun a b => phaseIndex a ≤ phaseIndex b) := by
  unfold frameTrace
  dsimp only
  rw [updateScene_trace]
  set rs1 := (updateScene tick rs dt).1 with hrs1
  have pticks := pairwise_of_const_phase (ticks_phase tick dt (scriptNames rs.world))
  have pfollow := pairwise_of_const_phase (followEvents_phase rs.world)
  have punif := pairwise_of_const_phase
    (uniformEvents_phase (updateFollowing rs.world))
  have psync := pairwise_of_const_phase
    (syncEvents_phase (updateFollowing rs.world))
  have prender := pairwise_of_const_phase (renderScene_phase rs1)
  have hsr : (syncEvents (updateFollowing rs.world) ++ renderScene rs1).Pairwise
      (fun a b => phaseIndex a ≤ phaseIndex b) := by
    refine pairwise_phase_append 3 ?_ ?_ psync prender
    · intro a ha
      rw [syncEvents_phase _ a ha]
    · intro b hb
      rw [renderScene_phase _ b hb]
      omega
  have husr : (uniformEvents (updateFollowing rs.world) ++
      (syncEvents (updateFollowing rs.world) ++ renderScene rs1)).Pairwise
      (fun a b => phaseIndex a ≤ phaseIndex b) := by
    refine pairwise_phase_append 2 ?_ ?_ punif hsr
    · intro a ha
      rw [uniformEvents_phase _ a ha]
    · intro b hb
      rcases List.mem_append.mp hb with h | h
      · rw [syncEvents_phase _ b h]; omega
      · rw [renderScene_phase _ b h]; omega
  have hfusr : (followEvents rs.world ++
      (uniformEvents (updateFollowing rs.world) ++
       (syncEvents (updateFollowing rs.world) ++ renderScene rs1))).Pairwise
      (fun a b => phaseIndex a ≤ phaseIndex b) := by
    refine pairwise_phase_append 1 ?_ ?_ pfollow husr
    · intro a ha
      rw [followEvents_phase _ a ha]
    · intro b hb
      rcases List.mem_append.mp hb with h | h
      · rw [uniformEvents_phase _ b h]; omega
      · rcases List.mem_append.mp h with h' | h'
        · rw [syncEvents_phase _ b h']; omega
        · rw [renderScene_phase _ b h']; omega
  have whole : ((runTicks tick dt (scriptNames rs.world)).2 ++
      (followEvents rs.world ++
       (uniformEvents (updateFollowing rs.world) ++
        (syncEvents (updateFollowing rs.world) ++ renderScene rs1)))).Pairwise
      (fun a b => phaseIndex a ≤ phaseIndex b) := by
    refine pairwise_phase_append 0 ?_ ?_ pticks hfusr
    · intro a ha
      rw [ticks_phase tick dt (scriptNames rs.world) a ha]
    · intro b _
      exact Nat.zero_le _
  simpa using whole

/-- The warnings of one `update` call are exactly those of its tick loop. -/
theorem updateScene_logs (tick : Nat → String → Int → Except String Unit)
    (rs : RuntimeScene) (dt : Int) :
    (updateScene tick rs dt).2.1 =
      (runTicks tick dt (scriptNames rs.world)).1 := by
  unfold updateScene
  dsimp only

/-- A failing tick of a collected entity contributes its warning to the tick
loop's log. -/
theorem runTicks_log_mem (tick : Nat → String → Int → Except String Unit)
    (dt : Int) (l : List (Nat × String)) (p : Nat × String) (hp : p ∈ l)
    (e : String) (he : tick p.1 p.2 dt = Except.error e) :
    tickFailLog p.2 p.1 e ∈ (runTicks tick dt l).1 := by
  induction l with
  | nil => cases hp
  | cons q rest ih =>
    obtain ⟨eid, name⟩ := q
    simp only [runTicks]
    rcases List.mem_cons.mp hp with h | h
    · subst h
      rw [he]
      simp
    · have hmem := ih h
      cases htick : tick eid name dt <;> simp [htick, hmem]

/-- C7: per-frame script-tick failures are contained: the frame's resulting
state and event trace are identical to those of a run where every tick
succeeds (the frame is never aborted and no other entity is skipped), every
script-bearing entity is ticked, and each failing entity's error is logged
with its script name and entity id. -/
theorem c7_tick_failures_isolated
    (tick : Nat → String → Int → Except String Unit)
    (rs : RuntimeScene) (dt : Int) :
    ((updateScene tick rs dt).1 =
      (updateScene (fun _ _ _ => Except.ok ()) rs dt).1) ∧
    ((updateScene tick rs dt).2.2 =
      (updateScene (fun _ _ _ => Except.ok ()) rs dt).2.2) ∧
    (∀ p ∈ scriptNames rs.world,
      FrameEvent.scriptTick p.1 ∈ (updateScene tick rs dt).2.2) ∧
    (∀ p ∈ scriptNames rs.world, ∀ e, tick p.1 p.2 dt = Except.error e →
      tickFailLog p.2 p.1 e ∈ (updateScene tick rs dt).2.1) := by
  refine ⟨rfl, ?_, ?_, ?_⟩
  · rw [updateScene_trace, updateScene_trace, runTicks_trace, runTicks_trace]
  · intro p hp
    rw [updateScene_trace]
    refine List.mem_append_left _ ?_
    rw [runTicks_trace]
    exact List.mem_map_of_mem _ hp
  · intro p hp e he
    rw [updateScene_logs]
    exact runTicks_log_mem tick dt (scriptNames rs.world) p hp e he

/-- An entity carrying the `patrol` script. -/
def patrolEntity : WorldEntity :=
  { id := 0, label := some "NPC", transform := some ⟨⟨0, 0, 0⟩⟩
  , script := some ⟨"patrol", "scripts/patrol.rhai"⟩
  , camera := Option.none, hasCameraComponent := false
  , followTarget := Option.none }

/-- A runtime state whose world holds the one scripted entity. -/
def rsScripted : RuntimeScene :=
  { RuntimeScene.new ⟨[⟨"Default"⟩]⟩ with world := [patrolEntity] }

/-- A script engine whose every tick fails. -/
def failingTick : Nat → String → Int → Except String Unit :=
  fun _ _ _ => Except.error "script runtime error"

/-- C7 witness: with the always-failing engine, the scripted entity's tick
failure is logged during `update`. -/
theorem c7_tick_failures_isolated_witness :
    tickFailLog "patrol" 0 "script runtime error" ∈
      (updateScene failingTick rsScripted 1).2.1 :=
  (c7_tick_failures_isolated failingTick rsScripted 1).2.2.2
    (0, "patrol") (by decide) "script runtime error" rfl


/-- When every pending script's path has a file name and its file is
readable, the script loop never aborts: it returns some log list. -/
theorem bindScripts_total (ext : Externals)
    (pending : List (Nat × ScriptComponent))
    (h : ∀ p ∈ pending,
      (pathFileName p.2.path).isSome ∧ (ext.fsRead p.2.path).isSome) :
    ∀ logs, ∃ L, bindScripts ext pending logs = some L := by
  induction pending with
  | nil => exact fun logs => ⟨logs, rfl⟩
  | cons q rest ih =>
    intro logs
    obtain ⟨eid, sc⟩ := q
    obtain ⟨hf, hr⟩ := h (eid, sc) (List.mem_cons_self _ _)
    obtain ⟨fname, hfname⟩ := Option.isSome_iff_exists.mp hf
    obtain ⟨bytes, hbytes⟩ := Option.isSome_iff_exists.mp hr
    have hrest := fun p hp => h p (List.mem_cons_of_mem _ hp)
    simp only [bindScripts, hfname, hbytes]
    cases hls : ext.loadScript fname bytes with
    | error e =>
      simp only [hls]
      exact ih hrest _
    | ok sname =>
      simp only [hls]
      cases hin : ext.initEntityScript eid sname with
      | error e =>
        simp only [hin]
        exact ih hrest _
      | ok u =>
        simp only [hin]
        exact ih hrest _

/-- The script loop only appends to its log accumulator. -/
theorem bindScripts_mono (ext : Externals) :
    ∀ (pending : List (Nat × ScriptComponent)) (logs L : List String),
      bindScripts ext pending logs = some L → ∀ x ∈ logs, x ∈ L := by
  intro pending
  induction pending with
  | nil =>
    intro logs L h x hx
    simp only [bindScripts, Option.some.injEq] at h
    exact h ▸ hx
  | cons q rest ih =>
    intro logs L h x hx
    obtain ⟨eid, sc⟩ := q
    simp only [bindScripts] at h
    cases hfn : pathFileName sc.path with
    | none =>
      simp only [hfn] at h
      exact Option.noConfusion h
    | some fname =>
      simp only [hfn] at h
      cases hrd : ext.fsRead sc.path with
      | none =>
        simp only [hrd] at h
        exact Option.noConfusion h
      | some bytes =>
        simp only [hrd] at h
        cases hls : ext.loadScript fname bytes with
        | error e =>
          simp only [hls] at h
          exact ih _ _ h x (List.mem_append_left _ hx)
        | ok sname =>
          simp only [hls] at h
          cases hin : ext.initEntityScript eid sname with
          | error e =>
            simp only [hin] at h
            exact ih _ _ h x (List.mem_append_left _ hx)
          | ok u =>
            simp only [hin] at h
            exact ih _ _ h x hx

/-- A pending entity whose `load_script` fails gets its warning into the
final log. -/
theorem bindScripts_load_fail_logged (ext : Externals) :
    ∀ (pending : List (Nat × ScriptComponent)) (logs L : List String)
      (eid : Nat) (sc : ScriptComponent) (f : String) (b : List Nat)
      (e : String),
      bindScripts ext pending logs = some L → (eid, sc) ∈ pending →
      pathFileName sc.path = some f → ext.fsRead sc.path = some b →
      ext.loadScript f b = Except.error e →
      loadFailLog sc.name e ∈ L := by
  intro pending
  induction pending with
  | nil =>
    intro logs L eid sc f b e _ hmem
    cases hmem
  | cons q rest ih =>
    intro logs L eid sc f b e h hmem hf hb he
    obtain ⟨eid', sc'⟩ := q
    rcases List.mem_cons.mp hmem with hq | hq
    · injection hq with h1 h2
      subst h1
      subst h2
      simp only [bindScripts, hf, hb, he] at h
      exact bindScripts_mono ext rest _ L h _
        (List.mem_append_right _ (List.mem_singleton.mpr rfl))
    · simp only [bindScripts] at h
      cases hfn : pathFileName sc'.path with
      | none =>
        simp only [hfn] at h
        exact Option.noConfusion h
      | some fname =>
        simp only [hfn] at h
        cases hrd : ext.fsRead sc'.path with
        | none =>
          simp only [hrd] at h
          exact Option.noConfusion h
        | some bytes =>
          simp only [hrd] at h
          cases hls : ext.loadScript fname bytes with
          | error e' =>
            simp only [hls] at h
            exact ih _ _ _ _ _ _ _ h hq hf hb he
          | ok sname =>
            simp only [hls] at h
            cases hin : ext.initEntityScript eid' sname with
            | error e' =>
              simp only [hin] at h
              exact ih _ _ _ _ _ _ _ h hq hf hb he
            | ok u =>
              simp only [hin] at h
              exact ih _ _ _ _ _ _ _ h hq hf hb he

/-- A pending entity whose `init_entity_script` fails gets its warning into
the final log. -/
theorem bindScripts_init_fail_logged (ext : Externals) :
    ∀ (pending : List (Nat × ScriptComponent)) (logs L : List String)
      (eid : Nat) (sc : ScriptComponent) (f : String) (b : List Nat)
      (s e : String),
      bindScripts ext pending logs = some L → (eid, sc) ∈ pending →
      pathFileName sc.path = some f → ext.fsRead sc.path = some b →
      ext.loadScript f b = Except.ok s →
      ext.initEntityScript eid s = Except.error e →
      initFailLog sc.name eid e ∈ L := by
  intro pending
  induction pending with
  | nil =>
    intro logs L eid sc f b s e _ hmem
    cases hmem
  | cons q rest ih =>
    intro logs L eid sc f b s e h hmem hf hb hl hi
    obtain ⟨eid', sc'⟩ := q
    rcases List.mem_cons.mp hmem with hq | hq
    · injection hq with h1 h2
      subst h1
      subst h2
      simp only [bindScripts, hf, hb, hl, hi] at h
      exact bindScripts_mono ext rest _ L h _
        (List.mem_append_right _ (List.mem_singleton.mpr rfl))
    · simp only [bindScripts] at h
      cases hfn : pathFileName sc'.path with
      | none =>
        simp only [hfn] at h
        exact Option.noConfusion h
      | some fname =>
        simp only [hfn] at h
        cases hrd : ext.fsRead sc'.path with
        | none =>
          simp only [hrd] at h
          exact Option.noConfusion h
        | some bytes =>
          simp only [hrd] at h
          cases hls : ext.loadScript fname bytes with
          | error e' =>
            simp only [hls] at h
            exact ih _ _ _ _ _ _ _ _ h hq hf hb hl hi
          | ok sname =>
            simp only [hls] at h
            cases hin : ext.initEntityScript eid' sname with
            | error e' =>
              simp only [hin] at h
              exact ih _ _ _ _ _ _ _ _ h hq hf hb hl hi
            | ok u =>
              simp only [hin] at h
              exact ih _ _ _ _ _ _ _ _ h hq hf hb hl hi

/-- C4 (amended): the script source is read from the filesystem at the
`ScriptComponent`'s stored path — not from a package `scripts` mapping — and
an unreadable path aborts the process (`unwrap`), it is not reported as a
recoverable script-source-missing error.  When every scripted entity's path
is readable, the scene load always completes: a `load_script` or
`init_entity_script` failure is only logged, leaving that entity unscripted,
and never fails the whole scene load. -/
theorem c4_script_bind_failures (ext : Externals) (rs : RuntimeScene)
    (name : String) (scene : SceneConfig) (w : World) (cam : Nat)
    (hscene : mapGet rs.scene_data name = some scene)
    (hload : ext.loadIntoWorld scene = Except.ok (w, cam))
    (hfs : ∀ p ∈ scriptedEntities w,
      (pathFileName p.2.path).isSome ∧ (ext.fsRead p.2.path).isSome) :
    (load_scene ext rs name).2.2 = LoadOutcome.ok ∧
    (load_scene ext rs name).1.current_scene_name = name ∧
    (∀ p ∈ scriptedEntities w, ∀ f b e,
      pathFileName p.2.path = some f → ext.fsRead p.2.path = some b →
      ext.loadScript f b = Except.error e →
      loadFailLog p.2.name e ∈ (load_scene ext rs name).2.1) ∧
    (∀ p ∈ scriptedEntities w, ∀ f b s e,
      pathFileName p.2.path = some f → ext.fsRead p.2.path = some b →
      ext.loadScript f b = Except.ok s →
      ext.initEntityScript p.1 s = Except.error e →
      initFailLog p.2.name p.1 e ∈ (load_scene ext rs name).2.1) := by
  obtain ⟨L, hL⟩ := bindScripts_total ext (scriptedEntities w) hfs []
  have heval : (load_scene ext rs name).2.2 = LoadOutcome.ok ∧
      (load_scene ext rs name).1.current_scene_name = name ∧
      (load_scene ext rs name).2.1 = L := by
    unfold load_scene
    dsimp only
    simp only [hscene, hload, hL]
    simp
  refine ⟨heval.1, heval.2.1, ?_, ?_⟩
  · intro p hp f b e hf hb he
    rw [heval.2.2]
    exact bindScripts_load_fail_logged ext (scriptedEntities w) [] L p.1 p.2
      f b e hL hp hf hb he
  · intro p hp f b s e hf hb hl hi
    rw [heval.2.2]
    exact bindScripts_init_fail_logged ext (scriptedEntities w) [] L p.1 p.2
      f b s e hL hp hf hb hl hi

/-- Externals whose script engine rejects every script at load time, over a
world with the one scripted entity. -/
def extLoadFails : Externals :=
  { loadIntoWorld := fun _ => Except.ok ([patrolEntity], 0)
  , fsRead := fun _ => some [1, 2, 3]
  , loadScript := fun _ _ => Except.error "parse error"
  , initEntityScript := fun _ _ => Except.ok ()
  , updateEntityScript := fun _ _ _ => Except.ok () }

/-- C4 witness: with a readable script file whose compilation fails, the
scene load still completes and the failure is logged. -/
theorem c4_script_bind_failures_witness :
    (load_scene extLoadFails (RuntimeScene.new ⟨[⟨"Default"⟩]⟩)
      "Default").2.2 = LoadOutcome.ok ∧
    loadFailLog "patrol" "parse error" ∈
      (load_scene extLoadFails (RuntimeScene.new ⟨[⟨"Default"⟩]⟩)
        "Default").2.1 := by
  have h := c4_script_bind_failures extLoadFails
    (RuntimeScene.new ⟨[⟨"Default"⟩]⟩) "Default" ⟨"Default"⟩ [patrolEntity] 0
    (by decide) rfl (by decide)
  exact ⟨h.1, h.2.2.1 (0, ⟨"patrol", "scripts/patrol.rhai"⟩) (by decide)
    "patrol.rhai" [1, 2, 3] "parse error" (by decide) rfl rfl⟩

/-- Externals for which the script file is missing from the filesystem. -/
def extNoFs : Externals :=
  { loadIntoWorld := fun _ => Except.ok ([patrolEntity], 0)
  , fsRead := fun _ => Option.none
  , loadScript := fun _ _ => Except.ok "patrol"
  , initEntityScript := fun _ _ => Except.ok ()
  , updateEntityScript := fun _ _ _ => Except.ok () }

/-- C4 counterexample: when the scripted entity's source file is missing,
`load_scene` does not report a script-source-missing error and continue — it
aborts the whole process at the `std::fs::read(..).unwrap()`, with nothing
logged. -/
theorem c4_counterexample :
    (load_scene extNoFs (RuntimeScene.new ⟨[⟨"Default"⟩]⟩) "Default").2.2 =
      LoadOutcome.panicMsg "called unwrap on a None value" ∧
    (load_scene extNoFs (RuntimeScene.new ⟨[⟨"Default"⟩]⟩) "Default").2.1 =
      [] := by
  exact ⟨by decide, by decide⟩
